import Mathlib

/-!
Shallow embedding of the GraphMyTunes job-orchestration engine and of the
analysis-unit helpers, used to check the natural-language specification
against the code.

Python strings are modelled at the level of their character lists, so that
every definition is executable by the kernel.  Python's `sorted` compares
strings lexicographically by code point; `charListLe` below is exactly that
order on `List Char`.
-/

namespace GraphMyTunes

/-- The single-quote character U+0027, as a string.  Kept as a named constant
so message strings can be assembled without quote literals. -/
def sq : String := Char.toString (Char.ofNat 39)

/-- The underscore character U+005F.  Identifiers whose first character is an
underscore mark shared helper code, not a runnable analysis unit. -/
def underscore : Char := Char.ofNat 95

/-- Lexicographic code-point order on character lists, as Python compares
strings: shorter prefixes sort first, otherwise compare the first differing
code point. -/
def charListLe : List Char → List Char → Bool
  | [], _ => true
  | _ :: _, [] => false
  | a :: as, b :: bs =>
    if a.toNat < b.toNat then true
    else if b.toNat < a.toNat then false
    else charListLe as bs

/-- String order induced by `charListLe` on the underlying character lists. -/
def strLe (a b : String) : Prop := charListLe a.data b.data = true

instance : DecidableRel strLe := fun a b => by unfold strLe; infer_instance

theorem charListLe_total (a b : List Char) :
    charListLe a b = true ∨ charListLe b a = true := by
  induction a generalizing b with
  | nil => left; simp [charListLe]
  | cons x xs ih =>
    cases b with
    | nil => right; simp [charListLe]
    | cons y ys =>
      rcases Nat.lt_trichotomy x.toNat y.toNat with h | h | h
      · left; simp [charListLe, h]
      · rcases ih ys with h2 | h2
        · left; simp [charListLe, h, h2]
        · right; simp [charListLe, h.symm, h2]
      · right; simp [charListLe, h]

theorem charListLe_trans (a b c : List Char)
    (hab : charListLe a b = true) (hbc : charListLe b c = true) :
    charListLe a c = true := by
  induction a generalizing b c with
  | nil => simp [charListLe]
  | cons x xs ih =>
    cases b with
    | nil => simp [charListLe] at hab
    | cons y ys =>
      cases c with
      | nil => simp [charListLe] at hbc
      | cons z zs =>
        simp only [charListLe] at hab hbc ⊢
        rcases Nat.lt_trichotomy x.toNat y.toNat with hxy | hxy | hxy
        · rcases Nat.lt_trichotomy y.toNat z.toNat with hyz | hyz | hyz
          · simp [show x.toNat < z.toNat by omega]
          · simp [show x.toNat < z.toNat by omega]
          · simp [show ¬ y.toNat < z.toNat by omega, hyz] at hbc
        · rcases Nat.lt_trichotomy y.toNat z.toNat with hyz | hyz | hyz
          · simp [show x.toNat < z.toNat by omega]
          · simp only [show ¬ x.toNat < y.toNat by omega,
              show ¬ y.toNat < x.toNat by omega, if_neg, if_false,
              ite_false] at hab
            simp only [show ¬ y.toNat < z.toNat by omega,
              show ¬ z.toNat < y.toNat by omega, if_neg, if_false,
              ite_false] at hbc
            simp only [show ¬ x.toNat < z.toNat by omega,
              show ¬ z.toNat < x.toNat by omega, if_neg, if_false, ite_false]
            exact ih ys zs hab hbc
          · simp [show ¬ y.toNat < z.toNat by omega, hyz] at hbc
        · simp [show ¬ x.toNat < y.toNat by omega, hxy] at hab

instance : IsTotal String strLe := ⟨fun a b => charListLe_total a.data b.data⟩

instance : IsTrans String strLe :=
  ⟨fun a b c hab hbc => charListLe_trans a.data b.data c.data hab hbc⟩

/-- Deterministic string sort used to model Python's `sorted` on identifiers
and pandas' sorted group keys. -/
def sortStr (l : List String) : List String := List.insertionSort strLe l

theorem sortStr_sorted (l : List String) : List.Sorted strLe (sortStr l) :=
  List.sorted_insertionSort strLe l

theorem mem_sortStr {s : String} {l : List String} : s ∈ sortStr l ↔ s ∈ l :=
  (List.perm_insertionSort strLe l).mem_iff

/-- A cell value of the tabular dataset: either a numeric value or a text
value.  A missing value (pandas NaN) is represented by `none` at the access
level, so a cell access has type `Option Cell`. -/
inductive Cell where
  | num (n : ℤ)
  | str (s : String)
deriving DecidableEq

/-- The shared in-memory tabular dataset (a pandas DataFrame in the source):
a list of column names plus rows, each row giving an optional cell per column
name. -/
structure DataFrame where
  columns : List String
  rows : List (String → Option Cell)

/-- The per-run parameter bundle handed to every analysis unit.  The source
builds it as a dict holding at least the global top-N cutoff and the debug
flag. -/
structure Params where
  top : ℤ
  debug : Bool
deriving DecidableEq

/-- Embedding of `_utils_.ensure_columns` (src/src/analysis/_utils_.py:42-46):
collect the required columns that are absent from the DataFrame and raise a
ValueError listing them when any is missing.  The raised message
`f"Missing columns: \x7bmissing\x7d"` renders the missing names as a Python
list literal, reproduced by `pyStrList`. -/
def pyStrList (xs : List String) : String :=
  "[" ++ String.intercalate ", " (xs.map (fun s => sq ++ s ++ sq)) ++ "]"

/-- Result of `ensure_columns`: `ok` when every required column is present,
otherwise the ValueError message. -/
def ensure_columns (df : DataFrame) (columns : List String) : Except String Unit :=
  let missing := columns.filter (fun c => !(df.columns.contains c))
  if missing.isEmpty then Except.ok ()
  else Except.error ("Missing columns: " ++ pyStrList missing)

/-- The horizontal-ellipsis character U+2026 appended by `trim_label`. -/
def hellip : String := Char.toString (Char.ofNat 8230)

/-- Python `str.strip()` on a character list: drop whitespace from both
ends. -/
def pyStrip (cs : List Char) : List Char :=
  ((cs.dropWhile Char.isWhitespace).reverse.dropWhile Char.isWhitespace).reverse

/-- Embedding of `_utils_.trim_label` (src/src/analysis/_utils_.py:55-58):
keep a label unchanged when its length is within `max_len`, else truncate to
`max_len` characters, strip, and append an ellipsis. -/
def trim_label (label : String) (max_len : Nat := 32) : String :=
  if label.data.length ≤ max_len then label
  else String.mk (pyStrip (label.data.take max_len)) ++ hellip

/-- Python `str.replace` for a single-character pattern, on character
lists. -/
def replaceChar (c : Char) (r : List Char) : List Char → List Char
  | [] => []
  | a :: as => if a = c then r ++ replaceChar c r as else a :: replaceChar c r as

/-- The characters `set("#&%$_^~\\\x7b\x7d|<>")` that the source treats as
unsafe for LaTeX italics (src/src/analysis/_utils_.py:89). -/
def unsafeChars : List Char :=
  [Char.ofNat 35, Char.ofNat 38, Char.ofNat 37, Char.ofNat 36, underscore,
   Char.ofNat 94, Char.ofNat 126, Char.ofNat 92, Char.ofNat 123,
   Char.ofNat 125, Char.ofNat 124, Char.ofNat 60, Char.ofNat 62]

/-- Embedding of `_utils_.create_artist_album_label`
(src/src/analysis/_utils_.py:74-98): trim the album name; if it holds any
LaTeX-unsafe character use plain `"artist: album"` formatting, otherwise
escape spaces and wrap the album in `$\mathit\x7b...\x7d$`. -/
def create_artist_album_label (artist album : String) (max_len : Nat := 32) :
    String :=
  let trimmed := trim_label album max_len
  if trimmed.data.any (fun c => unsafeChars.contains c) then
    artist ++ ": " ++ trimmed
  else
    artist ++ ": $\\mathit\x7b" ++
      String.mk (replaceChar (Char.ofNat 32) [Char.ofNat 92, Char.ofNat 32]
        trimmed.data) ++ "\x7d$"

/-- Rounding used by pandas `Series.round()` (numpy half-to-even). -/
def roundHalfToEven (q : ℚ) : ℤ :=
  if q - (⌊q⌋ : ℚ) < 1 / 2 then ⌊q⌋
  else if (1 : ℚ) / 2 < q - (⌊q⌋ : ℚ) then ⌊q⌋ + 1
  else if ⌊q⌋ % 2 = 0 then ⌊q⌋ else ⌊q⌋ + 1

/-- Elementwise embedding of `_utils_.rating_to_stars`
(src/src/analysis/_utils_.py:49-52) on one rating cell: fill a missing rating
with 0, divide by 20, round to an integer, then clip to the interval
`[0, 5]`. -/
def ratingToStarsElem (x : Option ℚ) : ℤ :=
  min 5 (max 0 (roundHalfToEven (x.getD 0 / 20)))

/-- Embedding of `_utils_.rating_to_stars` on a whole rating series, a list
of optional ratings where `none` is a missing (NaN) entry. -/
def rating_to_stars (rating : List (Option ℚ)) : List ℤ :=
  rating.map ratingToStarsElem

/-- Embedding of `DataFrame.dropna(subset=...)`: keep the rows that have no
missing value in any of the subset columns. -/
def dropna (subset : List String) (rows : List (String → Option Cell)) :
    List (String → Option Cell) :=
  rows.filter (fun r => subset.all (fun c => (r c).isSome))

/-- Embedding of `pd.to_numeric(col, errors="coerce").fillna(0).astype(int)`
on one cell: a numeric cell is kept, a text cell is coerced to NaN and then
filled with 0, and a missing cell is filled with 0.  (Text cells are modelled
as non-numeric.) -/
def toIntFill0 : Option Cell → ℤ
  | some (Cell.num n) => n
  | some (Cell.str _) => 0
  | none => 0

/-- Rendering of a cell value inside a Python f-string label. -/
def cellStr : Cell → String
  | Cell.str s => s
  | Cell.num n => toString n

/-- The per-row album label the album analyses assign before grouping:
`create_artist_album_label(row["Album Artist"], row["Album"])`.  Both cells
are present in every row the label is computed for, because the rows were
filtered with `dropna` first; the defaults are never reached there. -/
def rowLabel (r : String → Option Cell) : String :=
  create_artist_album_label (cellStr ((r "Album Artist").getD (Cell.str "")))
    (cellStr ((r "Album").getD (Cell.str "")))

/-- Group keys of `df.groupby("Album")`: the distinct row labels, in sorted
order as pandas sorts group keys. -/
def groupKeys (rows : List (String → Option Cell)) : List String :=
  sortStr ((rows.map rowLabel).dedup)

/-- The rows belonging to one group key. -/
def groupRows (rows : List (String → Option Cell)) (l : String) :
    List (String → Option Cell) :=
  rows.filter (fun r => rowLabel r == l)

/-- Aggregated sum of one numeric column over one group. -/
def groupSum (rows : List (String → Option Cell)) (l : String) (col : String) :
    ℤ :=
  ((groupRows rows l).map (fun r => toIntFill0 (r col))).sum

/-- Outcome of invoking one analysis unit's `run` entry point: the artifact
files it wrote, the data it plotted, and either the artifact path it returned
or the message of the exception it raised. -/
structure RunResult where
  writes : List String
  plotted : List (String × ℤ)
  result : Except String String

/-- Value order on labelled sums, used to model
`sort_values(ascending=True)`. -/
def pairValLe (a b : String × ℤ) : Prop := a.2 ≤ b.2

instance : DecidableRel pairValLe := fun a b => by unfold pairValLe; infer_instance

/-- Embedding of `album_plays.run` (src/src/analysis/album_plays.py:21-65):
check the required columns, drop rows with missing values, sum the play count
per album label, keep the top-N tail by value, plot it, and save
`output_path.png`.  A raised ValueError from the column check leaves no
artifact written. -/
def album_plays_run (df : DataFrame) (params : Params) (output_path : String) :
    RunResult :=
  match ensure_columns df ["Album", "Album Artist", "Play Count"] with
  | Except.error e => ⟨[], [], Except.error e⟩
  | Except.ok _ =>
    let rows := dropna ["Album", "Album Artist", "Play Count"] df.rows
    let sums := (groupKeys rows).map (fun l => (l, groupSum rows l "Play Count"))
    let sorted := List.insertionSort pairValLe sums
    let window := sorted.drop (sorted.length - params.top.toNat)
    ⟨[output_path ++ ".png"], window, Except.ok (output_path ++ ".png")⟩

/-- One row of the `album_stats` frame built by `album_play_ratio.run`:
aggregated play count, aggregated skip count, and the play-to-skip ratio. -/
structure AlbumStat where
  album : String
  play_count : ℤ
  skip_count : ℤ
  play_ratio : ℚ

/-- Row selection of `album_play_ratio.run`
(src/src/analysis/album_play_ratio.py:32-45): drop rows with missing values
in the four relevant columns, coerce the counts to integers, and keep only
tracks that have been played at least once. -/
def apr_rows (df : DataFrame) : List (String → Option Cell) :=
  (dropna ["Album", "Album Artist", "Play Count", "Skip Count"]
    df.rows).filter (fun r => decide (0 < toIntFill0 (r "Play Count")))

/-- Embedding of the `album_stats` computation of `album_play_ratio.run`
(src/src/analysis/album_play_ratio.py:32-69): over the selected rows, group
by album label, sum both counts, and assign the play ratio: play count plus
one when the aggregated skip count is zero, the quotient of the two sums
otherwise. -/
def album_play_ratio_stats (df : DataFrame) : List AlbumStat :=
  (groupKeys (apr_rows df)).map (fun l =>
    ⟨l, groupSum (apr_rows df) l "Play Count",
     groupSum (apr_rows df) l "Skip Count",
     if groupSum (apr_rows df) l "Skip Count" = 0 then
       (groupSum (apr_rows df) l "Play Count" : ℚ) + 1
     else
       (groupSum (apr_rows df) l "Play Count" : ℚ) /
         (groupSum (apr_rows df) l "Skip Count" : ℚ)⟩)

/-- Common shape of the remaining analysis units' `run` entry points at the
artifact granularity: every unit's first effectful step (only logging setup
precedes it in each source file) is `ensure_columns` on the unit's required
columns, whose ValueError aborts the unit before anything is written; on
success the unit aggregates, plots, saves, and returns
`output_path ++ "." ++ ext`.  The aggregation between check and save writes
no artifact and is not modelled here; for `album_plays` the full pipeline is
embedded above, and for `album_play_ratio` its `album_stats` pipeline is
embedded separately as `album_play_ratio_stats`. -/
def checkThenSave (required : List String) (ext : String) (df : DataFrame)
    (output_path : String) : RunResult :=
  match ensure_columns df required with
  | Except.error e => ⟨[], [], Except.error e⟩
  | Except.ok _ =>
    ⟨[output_path ++ "." ++ ext], [], Except.ok (output_path ++ "." ++ ext)⟩

/-- Embedding of `album_avg_daily_plays.run`
(src/src/analysis/album_avg_daily_plays.py:23-90): required-column check
first, artifact `.png` on success. -/
def album_avg_daily_plays_run (df : DataFrame) (_p : Params)
    (output_path : String) : RunResult :=
  checkThenSave ["Play Count", "Date Added", "Album", "Album Artist"] "png"
    df output_path

/-- Embedding of `album_avg_rating.run`
(src/src/analysis/album_avg_rating.py:24-96): required-column check first,
artifact `.png` on success. -/
def album_avg_rating_run (df : DataFrame) (_p : Params)
    (output_path : String) : RunResult :=
  checkThenSave ["Rating", "Album", "Album Artist"] "png" df output_path

/-- Embedding of `album_minplayed.run`
(src/src/analysis/album_minplayed.py:19-80): required-column check first,
artifact `.png` on success. -/
def album_minplayed_run (df : DataFrame) (_p : Params)
    (output_path : String) : RunResult :=
  checkThenSave ["Album", "Album Artist", "Play Count"] "png" df output_path

/-- Embedding of `album_play_ratio.run`
(src/src/analysis/album_play_ratio.py:22-95) at the artifact granularity:
required-column check first, artifact `.png` on success; its `album_stats`
data pipeline is embedded in full as `album_play_ratio_stats`. -/
def album_play_ratio_run (df : DataFrame) (_p : Params)
    (output_path : String) : RunResult :=
  checkThenSave ["Album", "Album Artist", "Play Count", "Skip Count"] "png"
    df output_path

/-- Embedding of `album_playtime.run`
(src/src/analysis/album_playtime.py:22-85): required-column check first,
artifact `.png` on success. -/
def album_playtime_run (df : DataFrame) (_p : Params)
    (output_path : String) : RunResult :=
  checkThenSave ["Album", "Album Artist", "Play Count", "Total Time"] "png"
    df output_path

/-- Embedding of `album_skip_ratio.run`
(src/src/analysis/album_skip_ratio.py:20-85): required-column check first,
artifact `.png` on success. -/
def album_skip_ratio_run (df : DataFrame) (_p : Params)
    (output_path : String) : RunResult :=
  checkThenSave ["Album", "Album Artist", "Play Count", "Skip Count"] "png"
    df output_path

/-- Embedding of `album_skips.run` (src/src/analysis/album_skips.py:21-65):
required-column check first, artifact `.png` on success. -/
def album_skips_run (df : DataFrame) (_p : Params)
    (output_path : String) : RunResult :=
  checkThenSave ["Album", "Album Artist", "Skip Count"] "png" df output_path

/-- Embedding of `album_wordcloud.run`
(src/src/analysis/album_wordcloud.py:24-58): required-column check first,
artifact `.png` on success. -/
def album_wordcloud_run (df : DataFrame) (_p : Params)
    (output_path : String) : RunResult :=
  checkThenSave ["Album"] "png" df output_path

/-- Embedding of `artist_minplayed.run`
(src/src/analysis/artist_minplayed.py:24-85): required-column check first,
artifact `.png` on success. -/
def artist_minplayed_run (df : DataFrame) (_p : Params)
    (output_path : String) : RunResult :=
  checkThenSave ["Artist", "Play Count"] "png" df output_path

/-- Embedding of `artist_play_ratio.run`
(src/src/analysis/artist_play_ratio.py:17-83): required-column check first,
artifact `.png` on success. -/
def artist_play_ratio_run (df : DataFrame) (_p : Params)
    (output_path : String) : RunResult :=
  checkThenSave ["Artist", "Play Count", "Skip Count"] "png" df output_path

/-- Embedding of `artist_plays.run` (src/src/analysis/artist_plays.py:16-57):
required-column check first, artifact `.png` on success. -/
def artist_plays_run (df : DataFrame) (_p : Params)
    (output_path : String) : RunResult :=
  checkThenSave ["Artist", "Play Count"] "png" df output_path

/-- Embedding of `artist_skip_ratio.run`
(src/src/analysis/artist_skip_ratio.py:22-84): required-column check first,
artifact `.png` on success. -/
def artist_skip_ratio_run (df : DataFrame) (_p : Params)
    (output_path : String) : RunResult :=
  checkThenSave ["Artist", "Play Count", "Skip Count"] "png" df output_path

/-- Embedding of `artist_tracks.run`
(src/src/analysis/artist_tracks.py:14-49): required-column check first,
artifact `.png` on success. -/
def artist_tracks_run (df : DataFrame) (_p : Params)
    (output_path : String) : RunResult :=
  checkThenSave ["Artist"] "png" df output_path

/-- Embedding of `artist_wordcloud.run`
(src/src/analysis/artist_wordcloud.py:22-49): required-column check first,
artifact `.png` on success. -/
def artist_wordcloud_run (df : DataFrame) (_p : Params)
    (output_path : String) : RunResult :=
  checkThenSave ["Artist"] "png" df output_path

/-- Embedding of `bitrate_distribution.run`
(src/src/analysis/bitrate_distribution.py:18-51): required-column check
first, artifact `.png` on success. -/
def bitrate_distribution_run (df : DataFrame) (_p : Params)
    (output_path : String) : RunResult :=
  checkThenSave ["Bit Rate"] "png" df output_path

/-- Embedding of `bpm_tracks.run` (src/src/analysis/bpm_tracks.py:17-51):
required-column check first, artifact `.png` on success. -/
def bpm_tracks_run (df : DataFrame) (_p : Params)
    (output_path : String) : RunResult :=
  checkThenSave ["BPM"] "png" df output_path

/-- Embedding of `decade_plays.run` (src/src/analysis/decade_plays.py:16-58):
required-column check first, artifact `.png` on success. -/
def decade_plays_run (df : DataFrame) (_p : Params)
    (output_path : String) : RunResult :=
  checkThenSave ["Year", "Play Count"] "png" df output_path

/-- Embedding of `decade_playtime.run`
(src/src/analysis/decade_playtime.py:16-63): required-column check first,
artifact `.png` on success. -/
def decade_playtime_run (df : DataFrame) (_p : Params)
    (output_path : String) : RunResult :=
  checkThenSave ["Year", "Play Count", "Total Time"] "png" df output_path

/-- Embedding of `genre_plays.run` (src/src/analysis/genre_plays.py:16-48):
required-column check first, artifact `.png` on success. -/
def genre_plays_run (df : DataFrame) (_p : Params)
    (output_path : String) : RunResult :=
  checkThenSave ["Genre", "Play Count"] "png" df output_path

/-- Embedding of `genre_tracks_bar.run`
(src/src/analysis/genre_tracks_bar.py:16-48): required-column check first,
artifact `.png` on success. -/
def genre_tracks_bar_run (df : DataFrame) (_p : Params)
    (output_path : String) : RunResult :=
  checkThenSave ["Genre"] "png" df output_path

/-- Embedding of `historical_date_added.run`
(src/src/analysis/historical_date_added.py:16-62): required-column check
first, artifact `.png` on success. -/
def historical_date_added_run (df : DataFrame) (_p : Params)
    (output_path : String) : RunResult :=
  checkThenSave ["Date Added"] "png" df output_path

/-- Embedding of `historical_last_played.run`
(src/src/analysis/historical_last_played.py:16-62): required-column check
first, artifact `.png` on success. -/
def historical_last_played_run (df : DataFrame) (_p : Params)
    (output_path : String) : RunResult :=
  checkThenSave ["Play Date UTC"] "png" df output_path

/-- Embedding of `historical_library_tracks.run`
(src/src/analysis/historical_library_tracks.py:17-56): required-column
check first, artifact `.png` on success. -/
def historical_library_tracks_run (df : DataFrame) (_p : Params)
    (output_path : String) : RunResult :=
  checkThenSave ["Date Added"] "png" df output_path

/-- Embedding of `kind_distribution.run`
(src/src/analysis/kind_distribution.py:16-43): required-column check first,
artifact `.png` on success. -/
def kind_distribution_run (df : DataFrame) (_p : Params)
    (output_path : String) : RunResult :=
  checkThenSave ["Kind"] "png" df output_path

/-- Embedding of `lastplay_heatmap.run`
(src/src/analysis/lastplay_heatmap.py:16-133): required-column check first,
artifact `.png` on success. -/
def lastplay_heatmap_run (df : DataFrame) (_p : Params)
    (output_path : String) : RunResult :=
  checkThenSave ["Play Date UTC"] "png" df output_path

/-- Embedding of `library_overview.run`
(src/src/analysis/library_overview.py:26-163): required-column check first,
artifact `.png` on success. -/
def library_overview_run (df : DataFrame) (_p : Params)
    (output_path : String) : RunResult :=
  checkThenSave ["Name", "Artist", "Album", "Total Time", "Date Added",
    "Play Count", "Size"] "png" df output_path

/-- Embedding of `play_count_distribution.run`
(src/src/analysis/play_count_distribution.py:17-47): required-column check
first, artifact `.png` on success. -/
def play_count_distribution_run (df : DataFrame) (_p : Params)
    (output_path : String) : RunResult :=
  checkThenSave ["Play Count"] "png" df output_path

/-- Embedding of `plays_by_isoweek.run`
(src/src/analysis/plays_by_isoweek.py:16-65): required-column check first,
artifact `.png` on success. -/
def plays_by_isoweek_run (df : DataFrame) (_p : Params)
    (output_path : String) : RunResult :=
  checkThenSave ["Play Date UTC"] "png" df output_path

/-- Embedding of `playtime_by_hour.run`
(src/src/analysis/playtime_by_hour.py:20-82): required-column check first,
artifact `.png` on success. -/
def playtime_by_hour_run (df : DataFrame) (_p : Params)
    (output_path : String) : RunResult :=
  checkThenSave ["Play Date UTC", "Play Count", "Total Time"] "png" df
    output_path

/-- Embedding of `playtime_by_month.run`
(src/src/analysis/playtime_by_month.py:19-80): required-column check first,
artifact `.png` on success. -/
def playtime_by_month_run (df : DataFrame) (_p : Params)
    (output_path : String) : RunResult :=
  checkThenSave ["Play Date UTC", "Play Count", "Total Time"] "png" df
    output_path

/-- Embedding of `playtime_by_weekday.run`
(src/src/analysis/playtime_by_weekday.py:19-68): required-column check
first, artifact `.png` on success. -/
def playtime_by_weekday_run (df : DataFrame) (_p : Params)
    (output_path : String) : RunResult :=
  checkThenSave ["Play Date UTC", "Play Count", "Total Time"] "png" df
    output_path

/-- Embedding of `rating_plays.run` (src/src/analysis/rating_plays.py:23-65):
required-column check first, artifact `.png` on success. -/
def rating_plays_run (df : DataFrame) (_p : Params)
    (output_path : String) : RunResult :=
  checkThenSave ["Rating", "Play Count"] "png" df output_path

/-- Embedding of `rating_playtime.run`
(src/src/analysis/rating_playtime.py:24-72): required-column check first,
artifact `.png` on success. -/
def rating_playtime_run (df : DataFrame) (_p : Params)
    (output_path : String) : RunResult :=
  checkThenSave ["Rating", "Play Count", "Total Time"] "png" df output_path

/-- Embedding of `track_avg_daily_plays.run`
(src/src/analysis/track_avg_daily_plays.py:23-77): required-column check
first, artifact `.png` on success. -/
def track_avg_daily_plays_run (df : DataFrame) (_p : Params)
    (output_path : String) : RunResult :=
  checkThenSave ["Play Count", "Date Added", "Name", "Artist"] "png" df
    output_path

/-- Embedding of `track_minplayed.run`
(src/src/analysis/track_minplayed.py:18-67): required-column check first,
artifact `.png` on success. -/
def track_minplayed_run (df : DataFrame) (_p : Params)
    (output_path : String) : RunResult :=
  checkThenSave ["Play Count"] "png" df output_path

/-- Embedding of `track_play_ratio.run`
(src/src/analysis/track_play_ratio.py:15-74): required-column check first,
artifact `.png` on success. -/
def track_play_ratio_run (df : DataFrame) (_p : Params)
    (output_path : String) : RunResult :=
  checkThenSave ["Name", "Artist", "Play Count", "Skip Count"] "png" df
    output_path

/-- Embedding of `track_wordcloud.run`
(src/src/analysis/track_wordcloud.py:24-63): required-column check first,
artifact `.png` on success. -/
def track_wordcloud_run (df : DataFrame) (_p : Params)
    (output_path : String) : RunResult :=
  checkThenSave ["Name"] "png" df output_path

/-- Embedding of `year_song_plays.run`
(src/src/analysis/year_song_plays.py:21-198): required-column check first,
artifact `.png` on success. -/
def year_song_plays_run (df : DataFrame) (_p : Params)
    (output_path : String) : RunResult :=
  checkThenSave ["Year", "Name", "Artist", "Album", "Play Count"] "png" df
    output_path

/-- One analysis unit as registered: its identifier, the required columns
its `ensure_columns` call names, and its `run` entry point. -/
structure AnalysisUnit where
  name : String
  required : List String
  run : DataFrame → Params → String → RunResult

/-- The registry of all 39 analysis units of src/src/analysis/ (every module
except the `_utils_` helper), each paired with the required-column list of
its `ensure_columns` call. -/
def analysis_units : List AnalysisUnit :=
  [⟨"album_avg_daily_plays",
    ["Play Count", "Date Added", "Album", "Album Artist"],
    album_avg_daily_plays_run⟩,
   ⟨"album_avg_rating", ["Rating", "Album", "Album Artist"],
    album_avg_rating_run⟩,
   ⟨"album_minplayed", ["Album", "Album Artist", "Play Count"],
    album_minplayed_run⟩,
   ⟨"album_play_ratio", ["Album", "Album Artist", "Play Count", "Skip Count"],
    album_play_ratio_run⟩,
   ⟨"album_plays", ["Album", "Album Artist", "Play Count"],
    album_plays_run⟩,
   ⟨"album_playtime", ["Album", "Album Artist", "Play Count", "Total Time"],
    album_playtime_run⟩,
   ⟨"album_skip_ratio", ["Album", "Album Artist", "Play Count", "Skip Count"],
    album_skip_ratio_run⟩,
   ⟨"album_skips", ["Album", "Album Artist", "Skip Count"],
    album_skips_run⟩,
   ⟨"album_wordcloud", ["Album"], album_wordcloud_run⟩,
   ⟨"artist_minplayed", ["Artist", "Play Count"], artist_minplayed_run⟩,
   ⟨"artist_play_ratio", ["Artist", "Play Count", "Skip Count"],
    artist_play_ratio_run⟩,
   ⟨"artist_plays", ["Artist", "Play Count"], artist_plays_run⟩,
   ⟨"artist_skip_ratio", ["Artist", "Play Count", "Skip Count"],
    artist_skip_ratio_run⟩,
   ⟨"artist_tracks", ["Artist"], artist_tracks_run⟩,
   ⟨"artist_wordcloud", ["Artist"], artist_wordcloud_run⟩,
   ⟨"bitrate_distribution", ["Bit Rate"], bitrate_distribution_run⟩,
   ⟨"bpm_tracks", ["BPM"], bpm_tracks_run⟩,
   ⟨"decade_plays", ["Year", "Play Count"], decade_plays_run⟩,
   ⟨"decade_playtime", ["Year", "Play Count", "Total Time"],
    decade_playtime_run⟩,
   ⟨"genre_plays", ["Genre", "Play Count"], genre_plays_run⟩,
   ⟨"genre_tracks_bar", ["Genre"], genre_tracks_bar_run⟩,
   ⟨"historical_date_added", ["Date Added"], historical_date_added_run⟩,
   ⟨"historical_last_played", ["Play Date UTC"], historical_last_played_run⟩,
   ⟨"historical_library_tracks", ["Date Added"],
    historical_library_tracks_run⟩,
   ⟨"kind_distribution", ["Kind"], kind_distribution_run⟩,
   ⟨"lastplay_heatmap", ["Play Date UTC"], lastplay_heatmap_run⟩,
   ⟨"library_overview",
    ["Name", "Artist", "Album", "Total Time", "Date Added", "Play Count",
     "Size"], library_overview_run⟩,
   ⟨"play_count_distribution", ["Play Count"], play_count_distribution_run⟩,
   ⟨"plays_by_isoweek", ["Play Date UTC"], plays_by_isoweek_run⟩,
   ⟨"playtime_by_hour", ["Play Date UTC", "Play Count", "Total Time"],
    playtime_by_hour_run⟩,
   ⟨"playtime_by_month", ["Play Date UTC", "Play Count", "Total Time"],
    playtime_by_month_run⟩,
   ⟨"playtime_by_weekday", ["Play Date UTC", "Play Count", "Total Time"],
    playtime_by_weekday_run⟩,
   ⟨"rating_plays", ["Rating", "Play Count"], rating_plays_run⟩,
   ⟨"rating_playtime", ["Rating", "Play Count", "Total Time"],
    rating_playtime_run⟩,
   ⟨"track_avg_daily_plays", ["Play Count", "Date Added", "Name", "Artist"],
    track_avg_daily_plays_run⟩,
   ⟨"track_minplayed", ["Play Count"], track_minplayed_run⟩,
   ⟨"track_play_ratio", ["Name", "Artist", "Play Count", "Skip Count"],
    track_play_ratio_run⟩,
   ⟨"track_wordcloud", ["Name"], track_wordcloud_run⟩,
   ⟨"year_song_plays", ["Year", "Name", "Artist", "Album", "Play Count"],
    year_song_plays_run⟩]

/-- Modelled from the spec: the Outcome Record of §3, the result tuple
`(unit identifier, artifact path or empty string on failure, elapsed
seconds)`.  The engine module `main.py` is absent from the sources; only its
tests are present, so the engine is modelled from the spec with the exact
message strings pinned by src/tests/test_main.py. -/
structure OutcomeRecord where
  unit_id : String
  artifact_path : String
  elapsed : ℚ
deriving DecidableEq

/-- Modelled from the spec: the Job Descriptor of §3, the immutable tuple
`(unit identifier, dataset reference, parameter bundle, output path)` built
once per selected unit. -/
structure JobDescriptor where
  unit_id : String
  dataset : DataFrame
  params : Params
  output_dir : String

/-- Modelled from the spec: what resolving a unit identifier by dynamic
loading can produce inside the Fault Isolation Wrapper (§4.4): an
ImportError, a module without the required `run` entry point
(AttributeError), or a loaded module whose entry point behaves as the given
function. -/
inductive ModuleResolution where
  | importErr (detail : String)
  | noRunAttr
  | mod (entry : DataFrame → Params → String → RunResult)

/-- Default job descriptor, used as the out-of-range default of positional
lookups. -/
def jd0 : JobDescriptor := ⟨"", ⟨[], []⟩, ⟨25, false⟩, ""⟩

/-- Default outcome record, used as the out-of-range default of positional
lookups. -/
def or0 : OutcomeRecord := ⟨"", "", 0⟩

/-- Modelled from the spec: the per-job Fault Isolation Wrapper
`run_analysis` (§4.4), with wall-clock readings `t0` before and `t1` after
the attempt.  Resolve the unit, validate the entry point, execute it; every
fault becomes a printed message plus the record `(unit_id, "", elapsed)`,
and success becomes `(unit_id, artifact_path, elapsed)`.  The message texts
are the ones asserted by src/tests/test_main.py:138-224. -/
def run_analysis (modules : String → ModuleResolution) (t0 t1 : ℚ)
    (job : JobDescriptor) : OutcomeRecord × List String :=
  let output_path := job.output_dir ++ "/" ++ job.unit_id
  match modules job.unit_id with
  | ModuleResolution.importErr d =>
      (⟨job.unit_id, "", t1 - t0⟩,
       ["Analysis module " ++ sq ++ job.unit_id ++ sq ++ " not found: " ++ d])
  | ModuleResolution.noRunAttr =>
      (⟨job.unit_id, "", t1 - t0⟩,
       ["Module " ++ sq ++ job.unit_id ++ sq ++
        " does not have a run() function."])
  | ModuleResolution.mod entry =>
      match (entry job.dataset job.params output_path).result with
      | Except.error d =>
          (⟨job.unit_id, "", t1 - t0⟩,
           ["Error running analysis " ++ sq ++ job.unit_id ++ sq ++ ": " ++ d])
      | Except.ok p => (⟨job.unit_id, p, t1 - t0⟩, [])

/-- Modelled from the spec: the Worker Pool Dispatcher contract (§4.3), the
pool's mapping operation returning one Outcome Record per Job Descriptor,
positionally correlated with the input sequence.  `times i` gives the two
wall-clock readings taken around job `i`. -/
def run_batch (modules : String → ModuleResolution) (times : Nat → ℚ × ℚ)
    (jobs : List JobDescriptor) : List OutcomeRecord :=
  (List.range jobs.length).map
    (fun i => (run_analysis modules (times i).1 (times i).2 (jobs.getD i jd0)).1)

/-- Placement of finished jobs into a pre-sized slot array: each worker
writes the outcome of job `i` into slot `i`, in whatever order the jobs
finish. -/
def poolFill (f : Nat → OutcomeRecord) :
    List (Option OutcomeRecord) → List Nat → List (Option OutcomeRecord)
  | slots, [] => slots
  | slots, i :: rest => poolFill f (slots.set i (some (f i))) rest

/-- Modelled from the spec: the dispatcher's result collection (§5, §9) when
the pool completes jobs in the arbitrary order `order`: every finished job is
placed into its own slot of a pre-sized array. -/
def run_batch_pool (modules : String → ModuleResolution) (times : Nat → ℚ × ℚ)
    (jobs : List JobDescriptor) (order : List Nat) :
    List (Option OutcomeRecord) :=
  poolFill
    (fun i => (run_analysis modules (times i).1 (times i).2 (jobs.getD i jd0)).1)
    (List.replicate jobs.length none) order

/-- Modelled from the spec: the Unit Registry `discover()` operation (§4.1):
filter out candidate identifiers that begin with the reserved underscore
marker, and return the rest sorted by identifier. -/
def discover (candidates : List String) : List String :=
  sortStr (candidates.filter (fun s => s.data.head? != some underscore))

/-- Modelled from the spec: the command-line arguments `main` consumes, as
exercised by src/tests/test_main.py. -/
structure MainArgs where
  version : Bool
  itunes_xml_path : Option String
  top : ℤ
  debug : Bool

/-- Observable result of one `main` invocation: the `sys.exit` code if the
process exited, the fatal error messages logged, and the Outcome Records
produced by the dispatch. -/
structure MainResult where
  exit_code : Option Nat
  errors : List String
  records : List OutcomeRecord

/-- Modelled from the spec: the batch-level control flow of `main` (§7),
with the check order pinned by src/tests/test_main.py:227-587: the version
flag exits first; a missing XML path, a non-positive top-N cutoff, a
non-existent XML file, a failing XML load, and an empty dataset are each
fatal with exit code 1 before any job is dispatched; otherwise the jobs for
the discovered units are dispatched and their records returned. -/
def main_run (args : MainArgs) (xml_exists : Bool)
    (load : Except String DataFrame) (modules : String → ModuleResolution)
    (times : Nat → ℚ × ℚ) (candidates : List String) (output_dir : String) :
    MainResult :=
  if args.version then ⟨some 0, [], []⟩
  else
    match args.itunes_xml_path with
    | none => ⟨some 1, ["Error: iTunes XML path is required."], []⟩
    | some _ =>
      if args.top ≤ 0 then
        ⟨some 1,
         [sq ++ "--top" ++ sq ++ " must be an integer greater than zero."], []⟩
      else if !xml_exists then
        ⟨some 1,
         ["The specified XML file does not exist. Please provide a valid path."],
         []⟩
      else
        match load with
        | Except.error e => ⟨some 1, ["Failed to load XML file: " ++ e], []⟩
        | Except.ok df =>
          if df.rows.isEmpty then
            ⟨some 1, ["No tracks found in the XML file."], []⟩
          else
            ⟨none, [],
             run_batch modules times ((discover candidates).map
               (fun n => ⟨n, df, ⟨args.top, args.debug⟩, output_dir⟩))⟩

/-- Default album statistic, used as the out-of-range default of positional
lookups. -/
def st0 : AlbumStat := ⟨"", 0, 0, 0⟩

theorem run_analysis_unit_id (modules : String → ModuleResolution)
    (t0 t1 : ℚ) (job : JobDescriptor) :
    ((run_analysis modules t0 t1 job).1).unit_id = job.unit_id := by
  rcases hm : modules job.unit_id with d | _ | entry
  · simp [run_analysis, hm]
  · simp [run_analysis, hm]
  · rcases hr : (entry job.dataset job.params
      (job.output_dir ++ "/" ++ job.unit_id)).result with d | p
    · simp [run_analysis, hm, hr]
    · simp [run_analysis, hm, hr]

theorem run_analysis_elapsed (modules : String → ModuleResolution)
    (t0 t1 : ℚ) (job : JobDescriptor) :
    ((run_analysis modules t0 t1 job).1).elapsed = t1 - t0 := by
  rcases hm : modules job.unit_id with d | _ | entry
  · simp [run_analysis, hm]
  · simp [run_analysis, hm]
  · rcases hr : (entry job.dataset job.params
      (job.output_dir ++ "/" ++ job.unit_id)).result with d | p
    · simp [run_analysis, hm, hr]
    · simp [run_analysis, hm, hr]

theorem run_batch_length (modules : String → ModuleResolution)
    (times : Nat → ℚ × ℚ) (jobs : List JobDescriptor) :
    (run_batch modules times jobs).length = jobs.length := by
  simp [run_batch]

theorem run_batch_getD (modules : String → ModuleResolution)
    (times : Nat → ℚ × ℚ) (jobs : List JobDescriptor) (i : Nat)
    (h : i < jobs.length) :
    (run_batch modules times jobs).getD i or0 =
      (run_analysis modules (times i).1 (times i).2 (jobs.getD i jd0)).1 := by
  have hlen : (run_batch modules times jobs).length = jobs.length :=
    run_batch_length modules times jobs
  rw [List.getD_eq_getElem _ _ (by rw [hlen]; exact h)]
  simp [run_batch]

theorem poolFill_length (f : Nat → OutcomeRecord) (order : List Nat)
    (slots : List (Option OutcomeRecord)) :
    (poolFill f slots order).length = slots.length := by
  induction order generalizing slots with
  | nil => simp [poolFill]
  | cons i rest ih =>
    simp [poolFill, ih, List.length_set]

theorem poolFill_getD (f : Nat → OutcomeRecord) (order : List Nat)
    (slots : List (Option OutcomeRecord)) (j : Nat) (hj : j < slots.length) :
    (poolFill f slots order).getD j none =
      if j ∈ order then some (f j) else slots.getD j none := by
  induction order generalizing slots with
  | nil => simp [poolFill]
  | cons i rest ih =>
    have hlen : (slots.set i (some (f i))).length = slots.length :=
      List.length_set slots i _
    have hrec := ih (slots.set i (some (f i))) (by rw [hlen]; exact hj)
    simp only [poolFill]
    rw [hrec]
    by_cases hjr : j ∈ rest
    · simp [hjr]
    · by_cases hij : i = j
      · subst hij
        simp only [hjr, if_false, List.mem_cons, true_or, if_true]
        rw [List.getD_eq_getElem _ _ (by rw [hlen]; exact hj),
          List.getElem_set]
        simp
      · have hjc : j ∉ i :: rest := by
          simp [List.mem_cons]
          exact ⟨fun hh => hij hh.symm, hjr⟩
        simp only [hjr, if_false, hjc]
        rw [List.getD_eq_getElem _ _ (by rw [hlen]; exact hj),
          List.getD_eq_getElem _ _ hj, List.getElem_set]
        simp [hij]

/-- C1: for every non-empty sequence of job descriptors submitted to the
batch dispatcher, the returned sequence of Outcome Records has exactly the
same length as the input, the record at each position carries the unit
identifier of the job descriptor at that position, and the slots the pool
fills agree with the positional result regardless of the order in which the
workers finish; no record is dropped. -/
theorem run_batch_one_record_per_job_in_order
    (modules : String → ModuleResolution) (times : Nat → ℚ × ℚ)
    (jobs : List JobDescriptor) (_hne : jobs ≠ []) (order : List Nat)
    (hperm : order.Perm (List.range jobs.length)) :
    run_batch_pool modules times jobs order =
      (run_batch modules times jobs).map some ∧
    (run_batch modules times jobs).length = jobs.length ∧
    ∀ i, i < jobs.length →
      ((run_batch modules times jobs).getD i or0).unit_id =
        (jobs.getD i jd0).unit_id := by
  refine ⟨?_, run_batch_length modules times jobs, ?_⟩
  · set f : Nat → OutcomeRecord :=
      fun i => (run_analysis modules (times i).1 (times i).2
        (jobs.getD i jd0)).1 with hf
    have hlp : (run_batch_pool modules times jobs order).length =
        jobs.length := by
      unfold run_batch_pool
      rw [poolFill_length, List.length_replicate]
    have hlm : ((run_batch modules times jobs).map some).length =
        jobs.length := by
      rw [List.length_map, run_batch_length]
    apply List.ext_getElem (by rw [hlp, hlm])
    intro n h1 h2
    have hn : n < jobs.length := by rw [hlp] at h1; exact h1
    have hmem : n ∈ order := by
      rw [hperm.mem_iff, List.mem_range]
      exact hn
    have hpool : (run_batch_pool modules times jobs order).getD n none =
        some (f n) := by
      unfold run_batch_pool
      rw [poolFill_getD _ _ _ _ (by rw [List.length_replicate]; exact hn)]
      simp [hmem, hf, List.getD]
    rw [List.getD_eq_getElem _ _ h1] at hpool
    rw [hpool]
    have hb : (run_batch modules times jobs).getD n or0 = f n :=
      run_batch_getD modules times jobs n hn
    rw [List.getD_eq_getElem _ _ (by rw [run_batch_length]; exact hn)] at hb
    rw [List.getElem_map, hb]
  · intro i hi
    rw [run_batch_getD modules times jobs i hi, run_analysis_unit_id]

/-- C1 witness: a concrete two-job batch dispatched with the workers
finishing in reverse order still yields the positional records. -/
theorem run_batch_one_record_per_job_in_order_witness :
    ([⟨"a", ⟨[], []⟩, ⟨10, false⟩, "/out"⟩,
      ⟨"b", ⟨[], []⟩, ⟨10, false⟩, "/out"⟩] : List JobDescriptor) ≠ [] ∧
    ([1, 0] : List Nat).Perm (List.range 2) ∧
    (run_batch_pool (fun _ => ModuleResolution.noRunAttr) (fun _ => (0, 1))
        [⟨"a", ⟨[], []⟩, ⟨10, false⟩, "/out"⟩,
         ⟨"b", ⟨[], []⟩, ⟨10, false⟩, "/out"⟩] [1, 0] =
      (run_batch (fun _ => ModuleResolution.noRunAttr) (fun _ => (0, 1))
        [⟨"a", ⟨[], []⟩, ⟨10, false⟩, "/out"⟩,
         ⟨"b", ⟨[], []⟩, ⟨10, false⟩, "/out"⟩]).map some ∧
     (run_batch (fun _ => ModuleResolution.noRunAttr) (fun _ => (0, 1))
        [⟨"a", ⟨[], []⟩, ⟨10, false⟩, "/out"⟩,
         ⟨"b", ⟨[], []⟩, ⟨10, false⟩, "/out"⟩]).length = 2 ∧
     ∀ i, i < 2 →
       ((run_batch (fun _ => ModuleResolution.noRunAttr) (fun _ => (0, 1))
          [⟨"a", ⟨[], []⟩, ⟨10, false⟩, "/out"⟩,
           ⟨"b", ⟨[], []⟩, ⟨10, false⟩, "/out"⟩]).getD i or0).unit_id =
         (([⟨"a", ⟨[], []⟩, ⟨10, false⟩, "/out"⟩,
            ⟨"b", ⟨[], []⟩, ⟨10, false⟩, "/out"⟩] :
            List JobDescriptor).getD i jd0).unit_id) :=
  ⟨by simp, by decide,
   run_batch_one_record_per_job_in_order
     (fun _ => ModuleResolution.noRunAttr) (fun _ => (0, 1))
     [⟨"a", ⟨[], []⟩, ⟨10, false⟩, "/out"⟩,
      ⟨"b", ⟨[], []⟩, ⟨10, false⟩, "/out"⟩]
     (by simp) [1, 0] (by decide)⟩

/-- C2: a job whose unit identifier cannot be resolved to a loadable module
yields the Outcome Record `(unit_id, "", elapsed)` together with the printed
message naming the unit and the underlying detail, and the batch still
returns one record per submitted job. -/
theorem run_analysis_import_error (modules : String → ModuleResolution)
    (t0 t1 : ℚ) (job : JobDescriptor) (d : String)
    (hm : modules job.unit_id = ModuleResolution.importErr d) :
    run_analysis modules t0 t1 job =
      (⟨job.unit_id, "", t1 - t0⟩,
       ["Analysis module " ++ sq ++ job.unit_id ++ sq ++ " not found: " ++ d]) ∧
    ∀ (times : Nat → ℚ × ℚ) (jobs : List JobDescriptor),
      (run_batch modules times jobs).length = jobs.length := by
  exact ⟨by simp [run_analysis, hm],
    fun times jobs => run_batch_length modules times jobs⟩

/-- C2 witness: the resolution failure of src/tests/test_main.py:138-164 at
concrete inputs. -/
theorem run_analysis_import_error_witness :
    (fun _ : String => ModuleResolution.importErr "Module not found")
        "test_analysis" = ModuleResolution.importErr "Module not found" ∧
    (run_analysis (fun _ => ModuleResolution.importErr "Module not found")
        0 1 ⟨"test_analysis", ⟨[], []⟩, ⟨10, false⟩, "/test/output"⟩ =
      (⟨"test_analysis", "", 1 - 0⟩,
       ["Analysis module " ++ sq ++ "test_analysis" ++ sq ++ " not found: " ++
        "Module not found"]) ∧
     ∀ (times : Nat → ℚ × ℚ) (jobs : List JobDescriptor),
       (run_batch (fun _ => ModuleResolution.importErr "Module not found")
         times jobs).length = jobs.length) :=
  ⟨rfl, run_analysis_import_error
    (fun _ => ModuleResolution.importErr "Module not found") 0 1
    ⟨"test_analysis", ⟨[], []⟩, ⟨10, false⟩, "/test/output"⟩
    "Module not found" rfl⟩

/-- C3: a job whose unit loads but exposes no `run` entry point yields the
Outcome Record `(unit_id, "", elapsed)` together with the printed
missing-entry-point message, and the batch still returns one record per
submitted job. -/
theorem run_analysis_attribute_error (modules : String → ModuleResolution)
    (t0 t1 : ℚ) (job : JobDescriptor)
    (hm : modules job.unit_id = ModuleResolution.noRunAttr) :
    run_analysis modules t0 t1 job =
      (⟨job.unit_id, "", t1 - t0⟩,
       ["Module " ++ sq ++ job.unit_id ++ sq ++
        " does not have a run() function."]) ∧
    ∀ (times : Nat → ℚ × ℚ) (jobs : List JobDescriptor),
      (run_batch modules times jobs).length = jobs.length := by
  exact ⟨by simp [run_analysis, hm],
    fun times jobs => run_batch_length modules times jobs⟩

/-- C3 witness: the missing-entry-point failure of
src/tests/test_main.py:166-194 at concrete inputs. -/
theorem run_analysis_attribute_error_witness :
    (fun _ : String => ModuleResolution.noRunAttr) "test_analysis" =
        ModuleResolution.noRunAttr ∧
    (run_analysis (fun _ => ModuleResolution.noRunAttr) 0 1
        ⟨"test_analysis", ⟨[], []⟩, ⟨10, false⟩, "/test/output"⟩ =
      (⟨"test_analysis", "", 1 - 0⟩,
       ["Module " ++ sq ++ "test_analysis" ++ sq ++
        " does not have a run() function."]) ∧
     ∀ (times : Nat → ℚ × ℚ) (jobs : List JobDescriptor),
       (run_batch (fun _ => ModuleResolution.noRunAttr) times jobs).length =
         jobs.length) :=
  ⟨rfl, run_analysis_attribute_error (fun _ => ModuleResolution.noRunAttr)
    0 1 ⟨"test_analysis", ⟨[], []⟩, ⟨10, false⟩, "/test/output"⟩ rfl⟩

/-- C4: a job whose entry point raises during execution yields the Outcome
Record `(unit_id, "", elapsed)` together with a printed error-running-unit
message that contains the original exception detail, and the batch still
returns one record per submitted job. -/
theorem run_analysis_general_exception (modules : String → ModuleResolution)
    (t0 t1 : ℚ) (job : JobDescriptor)
    (entry : DataFrame → Params → String → RunResult) (d : String)
    (hm : modules job.unit_id = ModuleResolution.mod entry)
    (hr : (entry job.dataset job.params
      (job.output_dir ++ "/" ++ job.unit_id)).result = Except.error d) :
    run_analysis modules t0 t1 job =
      (⟨job.unit_id, "", t1 - t0⟩,
       ["Error running analysis " ++ sq ++ job.unit_id ++ sq ++ ": " ++ d]) ∧
    (∃ pre post,
      "Error running analysis " ++ sq ++ job.unit_id ++ sq ++ ": " ++ d =
        pre ++ d ++ post) ∧
    ∀ (times : Nat → ℚ × ℚ) (jobs : List JobDescriptor),
      (run_batch modules times jobs).length = jobs.length := by
  refine ⟨by simp [run_analysis, hm, hr], ?_,
    fun times jobs => run_batch_length modules times jobs⟩
  exact ⟨"Error running analysis " ++ sq ++ job.unit_id ++ sq ++ ": ", "",
    by simp⟩

/-- C4 witness: the raising entry point of src/tests/test_main.py:196-224 at
concrete inputs. -/
theorem run_analysis_general_exception_witness :
    (fun _ : String => ModuleResolution.mod
        (fun _ _ _ => ⟨[], [], Except.error "Test error"⟩)) "test_analysis" =
      ModuleResolution.mod (fun _ _ _ => ⟨[], [], Except.error "Test error"⟩) ∧
    ((⟨[], [], Except.error "Test error"⟩ : RunResult).result =
      Except.error "Test error") ∧
    (run_analysis
        (fun _ => ModuleResolution.mod
          (fun _ _ _ => ⟨[], [], Except.error "Test error"⟩)) 0 1
        ⟨"test_analysis", ⟨[], []⟩, ⟨10, false⟩, "/test/output"⟩ =
      (⟨"test_analysis", "", 1 - 0⟩,
       ["Error running analysis " ++ sq ++ "test_analysis" ++ sq ++ ": " ++
        "Test error"]) ∧
     (∃ pre post,
       "Error running analysis " ++ sq ++ "test_analysis" ++ sq ++ ": " ++
         "Test error" = pre ++ "Test error" ++ post) ∧
     ∀ (times : Nat → ℚ × ℚ) (jobs : List JobDescriptor),
       (run_batch (fun _ => ModuleResolution.mod
           (fun _ _ _ => ⟨[], [], Except.error "Test error"⟩))
         times jobs).length = jobs.length) :=
  ⟨rfl, rfl, run_analysis_general_exception
    (fun _ => ModuleResolution.mod
      (fun _ _ _ => ⟨[], [], Except.error "Test error"⟩)) 0 1
    ⟨"test_analysis", ⟨[], []⟩, ⟨10, false⟩, "/test/output"⟩
    (fun _ _ _ => ⟨[], [], Except.error "Test error"⟩) "Test error" rfl rfl⟩

/-- C5: whatever the job's fate — success, resolution failure, missing entry
point, or a raise during execution — the elapsed field of its Outcome Record
is the difference of the wall-clock readings taken around the attempt, and
with monotone readings it is nonnegative. -/
theorem run_analysis_elapsed_nonneg (modules : String → ModuleResolution)
    (t0 t1 : ℚ) (job : JobDescriptor) (h : t0 ≤ t1) :
    ((run_analysis modules t0 t1 job).1).elapsed = t1 - t0 ∧
    0 ≤ ((run_analysis modules t0 t1 job).1).elapsed := by
  have he := run_analysis_elapsed modules t0 t1 job
  exact ⟨he, by rw [he]; exact sub_nonneg.mpr h⟩

/-- C5 witness: the failing job of src/tests/test_main.py:138-164 still gets
a nonnegative elapsed time from the readings 0.0 and 1.0. -/
theorem run_analysis_elapsed_nonneg_witness :
    ((0 : ℚ) ≤ 1) ∧
    (((run_analysis (fun _ => ModuleResolution.importErr "Module not found")
        0 1 ⟨"test_analysis", ⟨[], []⟩, ⟨10, false⟩, "/test/output"⟩).1).elapsed
        = 1 - 0 ∧
     0 ≤ ((run_analysis (fun _ => ModuleResolution.importErr "Module not found")
        0 1 ⟨"test_analysis", ⟨[], []⟩, ⟨10, false⟩, "/test/output"⟩).1).elapsed) :=
  ⟨by decide, run_analysis_elapsed_nonneg
    (fun _ => ModuleResolution.importErr "Module not found") 0 1
    ⟨"test_analysis", ⟨[], []⟩, ⟨10, false⟩, "/test/output"⟩ (by decide)⟩

/-- C6: when a batch run (not a version query) hits a batch-level fatal
condition — the loaded dataset has zero rows, or the global top-N parameter
is not a positive integer — the process logs a fatal error and exits with
code 1 before any job is dispatched, so zero Outcome Records are
produced. -/
theorem main_run_fatal_before_dispatch (args : MainArgs) (xml_exists : Bool)
    (load : Except String DataFrame) (modules : String → ModuleResolution)
    (times : Nat → ℚ × ℚ) (candidates : List String) (output_dir : String)
    (hv : args.version = false) (p : String)
    (hp : args.itunes_xml_path = some p)
    (hfatal : args.top ≤ 0 ∨ ∃ df, load = Except.ok df ∧ df.rows = []) :
    (main_run args xml_exists load modules times candidates
        output_dir).exit_code = some 1 ∧
    (main_run args xml_exists load modules times candidates
        output_dir).records = [] ∧
    (main_run args xml_exists load modules times candidates
        output_dir).errors ≠ [] := by
  unfold main_run
  rw [hv, hp]
  simp only [Bool.false_eq_true, if_false]
  by_cases htop : args.top ≤ 0
  · simp [htop]
  · rcases hfatal with htop2 | ⟨df, hload, hrows⟩
    · exact absurd htop2 htop
    · simp only [htop, if_false]
      by_cases hx : xml_exists
      · rw [hload]
        simp [hx, hrows, List.isEmpty_iff]
      · simp [hx]

/-- C6 witness: the empty-dataset run of src/tests/test_main.py:542-587,
with a valid top value, exits with code 1 and produces no records. -/
theorem main_run_fatal_before_dispatch_witness :
    ((⟨false, some "/test/file.xml", 10, true⟩ : MainArgs).version = false) ∧
    ((⟨false, some "/test/file.xml", 10, true⟩ : MainArgs).itunes_xml_path =
      some "/test/file.xml") ∧
    (((⟨false, some "/test/file.xml", 10, true⟩ : MainArgs).top ≤ 0 ∨
      ∃ df, (Except.ok (⟨["Name"], []⟩ : DataFrame) :
          Except String DataFrame) = Except.ok df ∧ df.rows = [])) ∧
    ((main_run ⟨false, some "/test/file.xml", 10, true⟩ true
        (Except.ok ⟨["Name"], []⟩) (fun _ => ModuleResolution.noRunAttr)
        (fun _ => (0, 1)) ["test_analysis"] "/custom/output").exit_code =
      some 1 ∧
     (main_run ⟨false, some "/test/file.xml", 10, true⟩ true
        (Except.ok ⟨["Name"], []⟩) (fun _ => ModuleResolution.noRunAttr)
        (fun _ => (0, 1)) ["test_analysis"] "/custom/output").records = [] ∧
     (main_run ⟨false, some "/test/file.xml", 10, true⟩ true
        (Except.ok ⟨["Name"], []⟩) (fun _ => ModuleResolution.noRunAttr)
        (fun _ => (0, 1)) ["test_analysis"] "/custom/output").errors ≠ []) :=
  ⟨rfl, rfl, Or.inr ⟨⟨["Name"], []⟩, rfl, rfl⟩,
   main_run_fatal_before_dispatch ⟨false, some "/test/file.xml", 10, true⟩
     true (Except.ok ⟨["Name"], []⟩) (fun _ => ModuleResolution.noRunAttr)
     (fun _ => (0, 1)) ["test_analysis"] "/custom/output" rfl
     "/test/file.xml" rfl (Or.inr ⟨⟨["Name"], []⟩, rfl, rfl⟩)⟩

/-- C7: the discovered unit identifiers form a sequence sorted by
identifier, every identifier beginning with the reserved underscore marker
(such as the shared helper `_utils_`) is excluded, and a second call on the
same unchanged candidate set returns the identical sequence. -/
theorem discover_sorted_excludes_reserved (candidates : List String)
    (s : String) (hs : s.data.head? = some underscore) :
    List.Sorted strLe (discover candidates) ∧
    s ∉ discover candidates ∧
    discover candidates = discover candidates := by
  refine ⟨sortStr_sorted _, ?_, rfl⟩
  intro hmem
  rw [discover, mem_sortStr, List.mem_filter] at hmem
  rcases hmem with ⟨-, hkeep⟩
  rw [hs] at hkeep
  simp [bne] at hkeep

/-- C7 witness: the helper module `_utils_` starts with the reserved marker,
so it is never discovered, while discovery over a concrete candidate set is
sorted and repeatable. -/
theorem discover_sorted_excludes_reserved_witness :
    ("_utils_").data.head? = some underscore ∧
    (List.Sorted strLe
      (discover ["album_plays", "_utils_", "album_play_ratio"]) ∧
     "_utils_" ∉ discover ["album_plays", "_utils_", "album_play_ratio"] ∧
     discover ["album_plays", "_utils_", "album_play_ratio"] =
       discover ["album_plays", "_utils_", "album_play_ratio"]) :=
  ⟨by decide, discover_sorted_excludes_reserved
    ["album_plays", "_utils_", "album_play_ratio"] "_utils_" (by decide)⟩

theorem mem_missing_columns {df : DataFrame} {required : List String}
    {c : String} (hc : c ∈ required) (hmiss : c ∉ df.columns) :
    c ∈ required.filter (fun c2 => !(df.columns.contains c2)) := by
  rw [List.mem_filter]
  refine ⟨hc, ?_⟩
  simp [List.contains, List.elem_eq_mem, hmiss]

theorem ensure_columns_error {df : DataFrame} {required : List String}
    {c : String} (hc : c ∈ required) (hmiss : c ∉ df.columns) :
    ensure_columns df required = Except.error ("Missing columns: " ++
      pyStrList (required.filter (fun c2 => !(df.columns.contains c2)))) := by
  unfold ensure_columns
  rw [if_neg]
  rw [List.isEmpty_iff]
  exact List.ne_nil_of_mem (mem_missing_columns hc hmiss)

theorem checkThenSave_error (required : List String) (ext : String)
    (df : DataFrame) (op : String) {c : String} (hc : c ∈ required)
    (hmiss : c ∉ df.columns) :
    checkThenSave required ext df op =
      ⟨[], [], Except.error ("Missing columns: " ++
        pyStrList (required.filter (fun c2 => !(df.columns.contains c2))))⟩ := by
  unfold checkThenSave
  rw [ensure_columns_error hc hmiss]

theorem album_plays_run_error (df : DataFrame) (pr : Params) (op : String)
    {c : String} (hc : c ∈ ["Album", "Album Artist", "Play Count"])
    (hmiss : c ∉ df.columns) :
    album_plays_run df pr op =
      ⟨[], [], Except.error ("Missing columns: " ++
        pyStrList (["Album", "Album Artist", "Play Count"].filter
          (fun c2 => !(df.columns.contains c2))))⟩ := by
  unfold album_plays_run
  rw [ensure_columns_error hc hmiss]

/-- C8: for every registered analysis unit and every dataset missing at
least one of that unit's required columns, the unit's `run` entry point
raises the ValueError of `ensure_columns` listing the missing column names
before any artifact is written — the unit writes and plots nothing — and
under the engine the fault surfaces as the execution-fault Outcome Record
`(unit_id, "", elapsed)` with an empty artifact path. -/
theorem analysis_units_missing_columns (u : AnalysisUnit)
    (hu : u ∈ analysis_units) (df : DataFrame) (c : String)
    (hc : c ∈ u.required) (hmiss : c ∉ df.columns)
    (modules : String → ModuleResolution) (t0 t1 : ℚ) (job : JobDescriptor)
    (hjob : job.dataset = df)
    (hm : modules job.unit_id = ModuleResolution.mod u.run) :
    c ∈ u.required.filter (fun c2 => !(df.columns.contains c2)) ∧
    (∀ (pr : Params) (op : String), u.run df pr op =
      ⟨[], [], Except.error ("Missing columns: " ++
        pyStrList (u.required.filter
          (fun c2 => !(df.columns.contains c2))))⟩) ∧
    (run_analysis modules t0 t1 job).1 = ⟨job.unit_id, "", t1 - t0⟩ := by
  have hrun : ∀ (pr : Params) (op : String), u.run df pr op =
      ⟨[], [], Except.error ("Missing columns: " ++
        pyStrList (u.required.filter
          (fun c2 => !(df.columns.contains c2))))⟩ := by
    fin_cases hu <;>
      first
      | exact fun pr op => checkThenSave_error _ _ _ _ hc hmiss
      | exact fun pr op => album_plays_run_error _ _ _ hc hmiss
  refine ⟨mem_missing_columns hc hmiss, hrun, ?_⟩
  have hres := hrun job.params (job.output_dir ++ "/" ++ job.unit_id)
  simp [run_analysis, hm, hjob, hres]

/-- C8 witness: a dataset lacking the Album column makes the registered
`album_avg_daily_plays` unit raise before writing anything, and the engine
records the empty artifact path. -/
theorem analysis_units_missing_columns_witness :
    ((⟨"album_avg_daily_plays",
       ["Play Count", "Date Added", "Album", "Album Artist"],
       album_avg_daily_plays_run⟩ : AnalysisUnit) ∈ analysis_units) ∧
    ("Album" ∈ (⟨"album_avg_daily_plays",
       ["Play Count", "Date Added", "Album", "Album Artist"],
       album_avg_daily_plays_run⟩ : AnalysisUnit).required) ∧
    ("Album" ∉ (⟨["Name"], []⟩ : DataFrame).columns) ∧
    ((⟨"album_avg_daily_plays", ⟨["Name"], []⟩, ⟨10, false⟩, "/out"⟩ :
        JobDescriptor).dataset = ⟨["Name"], []⟩) ∧
    ((fun _ : String => ModuleResolution.mod album_avg_daily_plays_run)
        "album_avg_daily_plays" =
      ModuleResolution.mod (⟨"album_avg_daily_plays",
        ["Play Count", "Date Added", "Album", "Album Artist"],
        album_avg_daily_plays_run⟩ : AnalysisUnit).run) ∧
    ("Album" ∈ (⟨"album_avg_daily_plays",
        ["Play Count", "Date Added", "Album", "Album Artist"],
        album_avg_daily_plays_run⟩ : AnalysisUnit).required.filter
        (fun c2 => !((⟨["Name"], []⟩ : DataFrame).columns.contains c2)) ∧
     (∀ (pr : Params) (op : String),
       (⟨"album_avg_daily_plays",
         ["Play Count", "Date Added", "Album", "Album Artist"],
         album_avg_daily_plays_run⟩ : AnalysisUnit).run ⟨["Name"], []⟩ pr op =
       ⟨[], [], Except.error ("Missing columns: " ++
         pyStrList ((⟨"album_avg_daily_plays",
           ["Play Count", "Date Added", "Album", "Album Artist"],
           album_avg_daily_plays_run⟩ : AnalysisUnit).required.filter
           (fun c2 => !((⟨["Name"], []⟩ : DataFrame).columns.contains c2))))⟩) ∧
     (run_analysis (fun _ => ModuleResolution.mod album_avg_daily_plays_run)
        0 1 ⟨"album_avg_daily_plays", ⟨["Name"], []⟩, ⟨10, false⟩,
          "/out"⟩).1 = ⟨"album_avg_daily_plays", "", 1 - 0⟩) :=
  ⟨List.Mem.head _, by decide, by decide, rfl, rfl,
   analysis_units_missing_columns
     ⟨"album_avg_daily_plays",
      ["Play Count", "Date Added", "Album", "Album Artist"],
      album_avg_daily_plays_run⟩ (List.Mem.head _) ⟨["Name"], []⟩ "Album"
     (by decide) (by decide)
     (fun _ => ModuleResolution.mod album_avg_daily_plays_run) 0 1
     ⟨"album_avg_daily_plays", ⟨["Name"], []⟩, ⟨10, false⟩, "/out"⟩ rfl rfl⟩

/-- C9: every album statistic produced by `album_play_ratio.run` has a
positive aggregated play count (rows were restricted to positive play
counts first), its ratio is play count plus one whenever the aggregated
skip count is zero, and the division branch is used only when the skip
count is non-zero — so the quotient never divides by zero. -/
theorem album_play_ratio_no_division_by_zero (df : DataFrame) (i : Nat)
    (h : i < (album_play_ratio_stats df).length) :
    0 < ((album_play_ratio_stats df).getD i st0).play_count ∧
    (((album_play_ratio_stats df).getD i st0).skip_count = 0 →
      ((album_play_ratio_stats df).getD i st0).play_ratio =
        (((album_play_ratio_stats df).getD i st0).play_count : ℚ) + 1) ∧
    (((album_play_ratio_stats df).getD i st0).skip_count ≠ 0 →
      ((album_play_ratio_stats df).getD i st0).play_ratio =
        (((album_play_ratio_stats df).getD i st0).play_count : ℚ) /
          (((album_play_ratio_stats df).getD i st0).skip_count : ℚ)) := by
  have hlen : (album_play_ratio_stats df).length =
      (groupKeys (apr_rows df)).length := List.length_map _ _
  have hik : i < (groupKeys (apr_rows df)).length := by rw [← hlen]; exact h
  have hget : (album_play_ratio_stats df).getD i st0 =
      ⟨(groupKeys (apr_rows df)).get ⟨i, hik⟩,
       groupSum (apr_rows df) ((groupKeys (apr_rows df)).get ⟨i, hik⟩)
         "Play Count",
       groupSum (apr_rows df) ((groupKeys (apr_rows df)).get ⟨i, hik⟩)
         "Skip Count",
       if groupSum (apr_rows df) ((groupKeys (apr_rows df)).get ⟨i, hik⟩)
           "Skip Count" = 0 then
         (groupSum (apr_rows df) ((groupKeys (apr_rows df)).get ⟨i, hik⟩)
           "Play Count" : ℚ) + 1
       else
         (groupSum (apr_rows df) ((groupKeys (apr_rows df)).get ⟨i, hik⟩)
           "Play Count" : ℚ) /
           (groupSum (apr_rows df) ((groupKeys (apr_rows df)).get ⟨i, hik⟩)
             "Skip Count" : ℚ)⟩ := by
    rw [List.getD_eq_getElem _ _ h]
    unfold album_play_ratio_stats
    rw [List.getElem_map]
    rfl
  set l := (groupKeys (apr_rows df)).get ⟨i, hik⟩ with hl
  have hlmem : l ∈ groupKeys (apr_rows df) := List.get_mem _ _ _
  have hexists : ∃ r ∈ apr_rows df, rowLabel r = l := by
    rw [groupKeys, mem_sortStr, List.mem_dedup, List.mem_map] at hlmem
    exact hlmem
  rcases hexists with ⟨r, hr, hrl⟩
  have hrg : r ∈ groupRows (apr_rows df) l := by
    rw [groupRows, List.mem_filter]
    exact ⟨hr, by rw [beq_iff_eq]; exact hrl⟩
  have hpos : 0 < groupSum (apr_rows df) l "Play Count" := by
    unfold groupSum
    apply List.sum_pos
    · intro x hx
      rw [List.mem_map] at hx
      rcases hx with ⟨r2, hr2, hx⟩
      have hr2rows : r2 ∈ apr_rows df := List.mem_of_mem_filter hr2
      have hr2pos := List.of_mem_filter hr2rows
      rw [← hx]
      exact of_decide_eq_true hr2pos
    · exact fun hnil => by
        rw [List.map_eq_nil_iff] at hnil
        rw [hnil] at hrg
        exact List.not_mem_nil r hrg
  rw [hget]
  refine ⟨hpos, ?_, ?_⟩
  · intro hz
    simp only at hz ⊢
    rw [if_pos hz]
  · intro hz
    simp only at hz ⊢
    rw [if_neg hz]

/-- C9 witness: a library with one played, never-skipped track gets the
play-count-plus-one ratio with a positive play count. -/
theorem album_play_ratio_no_division_by_zero_witness :
    0 < (album_play_ratio_stats
      ⟨["Album", "Album Artist", "Play Count", "Skip Count"],
       [fun c => if c = "Album" then some (Cell.str "X")
         else if c = "Album Artist" then some (Cell.str "A")
         else if c = "Play Count" then some (Cell.num 3)
         else if c = "Skip Count" then some (Cell.num 0)
         else none]⟩).length ∧
    (0 < ((album_play_ratio_stats
      ⟨["Album", "Album Artist", "Play Count", "Skip Count"],
       [fun c => if c = "Album" then some (Cell.str "X")
         else if c = "Album Artist" then some (Cell.str "A")
         else if c = "Play Count" then some (Cell.num 3)
         else if c = "Skip Count" then some (Cell.num 0)
         else none]⟩).getD 0 st0).play_count ∧
     (((album_play_ratio_stats
      ⟨["Album", "Album Artist", "Play Count", "Skip Count"],
       [fun c => if c = "Album" then some (Cell.str "X")
         else if c = "Album Artist" then some (Cell.str "A")
         else if c = "Play Count" then some (Cell.num 3)
         else if c = "Skip Count" then some (Cell.num 0)
         else none]⟩).getD 0 st0).skip_count = 0 →
      ((album_play_ratio_stats
      ⟨["Album", "Album Artist", "Play Count", "Skip Count"],
       [fun c => if c = "Album" then some (Cell.str "X")
         else if c = "Album Artist" then some (Cell.str "A")
         else if c = "Play Count" then some (Cell.num 3)
         else if c = "Skip Count" then some (Cell.num 0)
         else none]⟩).getD 0 st0).play_ratio =
        (((album_play_ratio_stats
      ⟨["Album", "Album Artist", "Play Count", "Skip Count"],
       [fun c => if c = "Album" then some (Cell.str "X")
         else if c = "Album Artist" then some (Cell.str "A")
         else if c = "Play Count" then some (Cell.num 3)
         else if c = "Skip Count" then some (Cell.num 0)
         else none]⟩).getD 0 st0).play_count : ℚ) + 1) ∧
     (((album_play_ratio_stats
      ⟨["Album", "Album Artist", "Play Count", "Skip Count"],
       [fun c => if c = "Album" then some (Cell.str "X")
         else if c = "Album Artist" then some (Cell.str "A")
         else if c = "Play Count" then some (Cell.num 3)
         else if c = "Skip Count" then some (Cell.num 0)
         else none]⟩).getD 0 st0).skip_count ≠ 0 →
      ((album_play_ratio_stats
      ⟨["Album", "Album Artist", "Play Count", "Skip Count"],
       [fun c => if c = "Album" then some (Cell.str "X")
         else if c = "Album Artist" then some (Cell.str "A")
         else if c = "Play Count" then some (Cell.num 3)
         else if c = "Skip Count" then some (Cell.num 0)
         else none]⟩).getD 0 st0).play_ratio =
        (((album_play_ratio_stats
      ⟨["Album", "Album Artist", "Play Count", "Skip Count"],
       [fun c => if c = "Album" then some (Cell.str "X")
         else if c = "Album Artist" then some (Cell.str "A")
         else if c = "Play Count" then some (Cell.num 3)
         else if c = "Skip Count" then some (Cell.num 0)
         else none]⟩).getD 0 st0).play_count : ℚ) /
          (((album_play_ratio_stats
      ⟨["Album", "Album Artist", "Play Count", "Skip Count"],
       [fun c => if c = "Album" then some (Cell.str "X")
         else if c = "Album Artist" then some (Cell.str "A")
         else if c = "Play Count" then some (Cell.num 3)
         else if c = "Skip Count" then some (Cell.num 0)
         else none]⟩).getD 0 st0).skip_count : ℚ))) :=
  ⟨by decide,
   album_play_ratio_no_division_by_zero
     ⟨["Album", "Album Artist", "Play Count", "Skip Count"],
      [fun c => if c = "Album" then some (Cell.str "X")
        else if c = "Album Artist" then some (Cell.str "A")
        else if c = "Play Count" then some (Cell.num 3)
        else if c = "Skip Count" then some (Cell.num 0)
        else none]⟩ 0 (by decide)⟩

theorem roundHalfToEven_zero : roundHalfToEven 0 = 0 := by
  norm_num [roundHalfToEven]

/-- C10: every star value of `rating_to_stars` lies in the closed interval
`[0, 5]`, and every missing (NaN) rating is mapped to 0 stars. -/
theorem rating_to_stars_in_range (series : List (Option ℚ)) (i : Nat)
    (h : i < series.length) :
    (rating_to_stars series).length = series.length ∧
    0 ≤ (rating_to_stars series).getD i 7 ∧
    (rating_to_stars series).getD i 7 ≤ 5 ∧
    (series.getD i (some 1) = none → (rating_to_stars series).getD i 7 = 0) := by
  have hlen : (rating_to_stars series).length = series.length :=
    List.length_map _ _
  have hget : (rating_to_stars series).getD i 7 =
      ratingToStarsElem (series.get ⟨i, h⟩) := by
    rw [List.getD_eq_getElem _ _ (by rw [hlen]; exact h)]
    unfold rating_to_stars
    rw [List.getElem_map]
    rfl
  refine ⟨hlen, ?_, ?_, ?_⟩
  · rw [hget]; unfold ratingToStarsElem; omega
  · rw [hget]; unfold ratingToStarsElem; omega
  · intro hnone
    rw [List.getD_eq_getElem _ _ h] at hnone
    rw [hget]
    have : series.get ⟨i, h⟩ = none := hnone
    rw [this]
    unfold ratingToStarsElem
    rw [show ((none : Option ℚ).getD 0 / 20 : ℚ) = 0 by simp,
      roundHalfToEven_zero]
    rfl

/-- C10 witness: a series with a missing rating in front maps it to 0 stars,
inside the interval. -/
theorem rating_to_stars_in_range_witness :
    0 < ([none, some 100] : List (Option ℚ)).length ∧
    ((rating_to_stars [none, some 100]).length =
        ([none, some 100] : List (Option ℚ)).length ∧
     0 ≤ (rating_to_stars [none, some 100]).getD 0 7 ∧
     (rating_to_stars [none, some 100]).getD 0 7 ≤ 5 ∧
     (([none, some 100] : List (Option ℚ)).getD 0 (some 1) = none →
       (rating_to_stars [none, some 100]).getD 0 7 = 0)) :=
  ⟨by decide, rating_to_stars_in_range [none, some 100] 0 (by decide)⟩

end GraphMyTunes
